import Mathlib

/-!
Shallow embedding of `src/moisture-sensor.ino` (tplet/arduino-moisture-sensor).

The firmware is a duty-cycle state machine over five module-scoped globals
(`lastProbeValue`, `cycleCpt`, `batteryLowCpt`, `cycleCptReset`,
`probeValueReceived`).  Each wake cycle runs `processMoisture`, then
`processBattery`, then `processReset`, then sleeps; an asynchronous
`receive` callback may fire between steps and sets one boolean flag.

Machine integers: `cycleCpt`, `batteryLowCpt`, `cycleCptReset` are
`uint16_t`, modelled as `Nat` with explicit `% 65536` wherever the source
increments them.  `lastProbeValue` is a C `int`, modelled as `Int` (the
values stored are always in [0,100], far from any overflow).
The battery state of charge is a `float` returned by the gauge driver and
is only ever compared against the constant threshold 10; we model it as a
rational number.
-/

namespace MoistureSensor

/-- `#define FORCE_SEND_AFTER_N_CYCLE 3` -/
def FORCE_SEND_AFTER_N_CYCLE : Nat := 3

/-- `#define RESET_AFTER_N_CYCLE 36` -/
def RESET_AFTER_N_CYCLE : Nat := 36

/-- `#define SEND_BATTERY_LOW_AFTER_N_CYCLE 3` -/
def SEND_BATTERY_LOW_AFTER_N_CYCLE : Nat := 3

/-- `#define BATTERY_LOW_LIMIT 10` (percent) -/
def BATTERY_LOW_LIMIT : ℚ := 10

/-- `#define NUM_READS (int)10` — declared sample count for filtering. -/
def NUM_READS : Nat := 10

/-- `#define CHILD_VALUE_ID 0` -/
def CHILD_VALUE_ID : Nat := 0

/-- Modulus of `uint16_t` arithmetic. -/
def UINT16_MOD : Nat := 65536

/-- The module-scoped globals of the sketch. -/
structure NodeState where
  lastProbeValue : Int
  cycleCpt : Nat
  batteryLowCpt : Nat
  cycleCptReset : Nat
  probeValueReceived : Bool
  deriving DecidableEq

/-- State at entry to the first `loop()` iteration after power-on: C++
zero-initialises the numeric globals, `probeValueReceived` is initialised
`true` at its declaration, and `setup()` then sets
`cycleCpt = FORCE_SEND_AFTER_N_CYCLE` ("Force send at startup"). -/
def initialState : NodeState :=
  { lastProbeValue := 0
    cycleCpt := FORCE_SEND_AFTER_N_CYCLE
    batteryLowCpt := 0
    cycleCptReset := 0
    probeValueReceived := true }

/-- `int probeValue = (int)round(100.0 * (float)probeValueGross / 1024.0);`

For ADC values `raw ≤ 1023` the float computation is exact:
`100.0 * raw ≤ 102300 < 2^24` is exactly representable, and division by
the power of two `1024.0` only shifts the exponent.  C `round` rounds
half away from zero, which on the non-negative values arising here is
`⌊x + 1/2⌋`, i.e. the integer `(100 * raw + 512) / 1024` (the lemma
`scaleProbeValue_eq_round` below relates this to `round : ℚ → ℤ`). -/
def scaleProbeValue (raw : Nat) : Int :=
  ((100 * raw + 512) / 1024 : Nat)

/-- Outcome of `processMoisture`: the updated globals and the probe value
sent to the gateway via `send(messageValue.set(probeValue), true)`, when a
send occurred (`bool r`). -/
def processMoisture (s : NodeState) (raw : Nat) : NodeState × Option Int :=
  let probeValue := scaleProbeValue raw
  if probeValue != s.lastProbeValue
      || s.cycleCpt == FORCE_SEND_AFTER_N_CYCLE
      || !s.probeValueReceived then
    ({ s with
        lastProbeValue := probeValue
        cycleCpt := 0
        probeValueReceived := false }, some probeValue)
  else
    ({ s with cycleCpt := (s.cycleCpt + 1) % UINT16_MOD }, none)

/-- Observable radio-side effects of `processBattery`, in program order:
`sendBatteryLevel(level)` calls and the terminal indefinite
`sleep(1, CHANGE, 0)`. -/
inductive BatteryEvent where
  | sendLevel (level : ℚ)
  | sleepForever
  deriving DecidableEq

/-- `void processBattery(bool allowSend)` with the gauge reading
`batteryGauge.getSOC()` passed in as `soc`.  Returns the updated globals
and the ordered list of radio/sleep effects. -/
def processBattery (s : NodeState) (allowSend : Bool) (soc : ℚ) :
    NodeState × List BatteryEvent :=
  let sendEvents := if allowSend then [BatteryEvent.sendLevel soc] else []
  let s1 :=
    if soc < BATTERY_LOW_LIMIT then
      { s with batteryLowCpt := (s.batteryLowCpt + 1) % UINT16_MOD }
    else
      { s with batteryLowCpt := 0 }
  if s1.batteryLowCpt ≥ SEND_BATTERY_LOW_AFTER_N_CYCLE then
    ({ s1 with batteryLowCpt := 0 },
      sendEvents ++ [BatteryEvent.sendLevel 0, BatteryEvent.sleepForever])
  else
    (s1, sendEvents)

/-- `void processReset()`: increments `cycleCptReset`; at the threshold it
calls `restart()` → `doRestart(true)`, which zeroes `cycleCptReset` and
then executes `asm volatile ("  jmp 0")`.  The returned flag records that
the restart was initiated (the jump never returns; the whole process
re-enters `initialState`). -/
def processReset (s : NodeState) : NodeState × Bool :=
  let s1 := { s with cycleCptReset := (s.cycleCptReset + 1) % UINT16_MOD }
  if s1.cycleCptReset ≥ RESET_AFTER_N_CYCLE then
    ({ s1 with cycleCptReset := 0 }, true)
  else
    (s1, false)

/-- `void receive(const MyMessage &message)`: sets `probeValueReceived`
when the message is an acknowledgement on the moisture child id. -/
def receive (s : NodeState) (sensor : Nat) (ack : Bool) : NodeState :=
  if sensor == CHILD_VALUE_ID && ack then
    { s with probeValueReceived := true }
  else
    s

/-- One `loop()` iteration: moisture step, battery step (gated by the
moisture step's return value), reset step.  If the reset step initiated a
software restart, the `jmp 0` re-runs initialisation and the process
re-enters `initialState`. -/
def loopCycle (s : NodeState) (raw : Nat) (soc : ℚ) : NodeState :=
  let m := processMoisture s raw
  let b := processBattery m.1 m.2.isSome soc
  let r := processReset b.1
  if r.2 then initialState else r.1

/-- States reachable from power-on: the initial state, any full duty
cycle with arbitrary ADC and gauge inputs, and the asynchronous `receive`
callback firing with an arbitrary message. -/
inductive Reachable : NodeState → Prop where
  | init : Reachable initialState
  | cycle (s : NodeState) (raw : Nat) (soc : ℚ) :
      Reachable s → Reachable (loopCycle s raw soc)
  | recv (s : NodeState) (sensor : Nat) (ack : Bool) :
      Reachable s → Reachable (receive s sensor ack)

/-- Iterate `processBattery` (with `allowSend = false`) over a list of
gauge readings, recording after each cycle the resulting
`batteryLowCpt` and whether the terminal low-power branch fired
(`sleep(1, CHANGE, 0)` was reached). -/
def batteryTrace (s : NodeState) (socs : List ℚ) : List (Nat × Bool) :=
  match socs with
  | [] => []
  | soc :: rest =>
    let r := processBattery s false soc
    (r.1.batteryLowCpt, decide (BatteryEvent.sleepForever ∈ r.2))
      :: batteryTrace r.1 rest

/-- State with `batteryLowCpt = 0` used for the C4 example trace. -/
def batteryExampleState : NodeState :=
  { initialState with batteryLowCpt := 0 }

/-- The per-cycle ADC sample stream: `adc n` is the value the `n`-th
`analogRead(MOISTURE_PIN)` of the cycle would return.  The source's read
path executes exactly one `analogRead`, so `processMoisture` consumes
only sample 0. -/
def processMoistureAdc (adc : Nat → Nat) (s : NodeState) :
    NodeState × Option Int :=
  processMoisture s (adc 0)

theorem scaleProbeValue_eq_round (raw : Nat) :
    scaleProbeValue raw = round ((100 * raw : ℚ) / 1024) := by
  unfold scaleProbeValue
  rw [round_eq]
  have h : (100 * raw : ℚ) / 1024 + 1 / 2
      = ((100 * raw + 512 : Nat) : ℚ) / ((1024 : Nat) : ℚ) := by
    push_cast; ring
  rw [h, Rat.floor_natCast_div_natCast]
  simp [Int.ofNat_tdiv]

theorem scaleProbeValue_le (raw : Nat) (h : raw ≤ 1023) :
    scaleProbeValue raw ≤ 100 := by
  unfold scaleProbeValue
  have : (100 * raw + 512) / 1024 ≤ 100 := by omega
  omega

theorem scaleProbeValue_nonneg (raw : Nat) : 0 ≤ scaleProbeValue raw := by
  unfold scaleProbeValue
  positivity

theorem processBattery_cycleCpt (s : NodeState) (a : Bool) (soc : ℚ) :
    ((processBattery s a soc).1).cycleCpt = s.cycleCpt := by
  simp only [processBattery]
  split <;> split <;> rfl

theorem processReset_cycleCpt (s : NodeState) :
    ((processReset s).1).cycleCpt = s.cycleCpt := by
  simp only [processReset]
  split <;> rfl

theorem receive_cycleCpt (s : NodeState) (sensor : Nat) (ack : Bool) :
    (receive s sensor ack).cycleCpt = s.cycleCpt := by
  unfold receive
  split <;> rfl

theorem processMoisture_cycleCpt_le (s : NodeState) (raw : Nat)
    (h : s.cycleCpt ≤ FORCE_SEND_AFTER_N_CYCLE) :
    ((processMoisture s raw).1).cycleCpt ≤ FORCE_SEND_AFTER_N_CYCLE := by
  simp only [processMoisture]
  split
  · simp [FORCE_SEND_AFTER_N_CYCLE]
  · rename_i hc
    simp only [Bool.or_eq_true, not_or, beq_iff_eq, Bool.not_eq_true,
      bne_iff_ne, ne_eq, Bool.not_eq_true'] at hc
    dsimp only
    unfold FORCE_SEND_AFTER_N_CYCLE UINT16_MOD at *
    omega

theorem loopCycle_cycleCpt_le (s : NodeState) (raw : Nat) (soc : ℚ)
    (h : s.cycleCpt ≤ FORCE_SEND_AFTER_N_CYCLE) :
    (loopCycle s raw soc).cycleCpt ≤ FORCE_SEND_AFTER_N_CYCLE := by
  simp only [loopCycle]
  split
  · decide
  · rw [processReset_cycleCpt, processBattery_cycleCpt]
    exact processMoisture_cycleCpt_le s raw h

theorem reachable_cycleCpt_le (s : NodeState) (h : Reachable s) :
    s.cycleCpt ≤ FORCE_SEND_AFTER_N_CYCLE := by
  induction h with
  | init => decide
  | cycle s raw soc _ ih => exact loopCycle_cycleCpt_le s raw soc ih
  | recv s sensor ack _ ih => rw [receive_cycleCpt]; exact ih

theorem processBattery_lastProbeValue (s : NodeState) (a : Bool) (soc : ℚ) :
    ((processBattery s a soc).1).lastProbeValue = s.lastProbeValue := by
  simp only [processBattery]
  split <;> split <;> rfl

theorem processBattery_probeValueReceived (s : NodeState) (a : Bool) (soc : ℚ) :
    ((processBattery s a soc).1).probeValueReceived = s.probeValueReceived := by
  simp only [processBattery]
  split <;> split <;> rfl

theorem processReset_lastProbeValue (s : NodeState) :
    ((processReset s).1).lastProbeValue = s.lastProbeValue := by
  simp only [processReset]
  split <;> rfl

theorem processReset_probeValueReceived (s : NodeState) :
    ((processReset s).1).probeValueReceived = s.probeValueReceived := by
  simp only [processReset]
  split <;> rfl

theorem receive_lastProbeValue (s : NodeState) (sensor : Nat) (ack : Bool) :
    (receive s sensor ack).lastProbeValue = s.lastProbeValue := by
  unfold receive
  split <;> rfl

theorem processMoisture_none_lastProbeValue (s : NodeState) (raw : Nat)
    (h : (processMoisture s raw).2 = none) :
    ((processMoisture s raw).1).lastProbeValue = s.lastProbeValue := by
  by_cases hcond : (scaleProbeValue raw != s.lastProbeValue
      || s.cycleCpt == FORCE_SEND_AFTER_N_CYCLE
      || !s.probeValueReceived) = true
  · simp [processMoisture, hcond] at h
  · simp [processMoisture, hcond]

/-- Claim C1: In every duty cycle (from a reachable state), the moisture
step sends a reading iff the scaled reading differs from
`lastProbeValue`, or `cycleCpt` has reached `FORCE_SEND_AFTER_N_CYCLE`,
or `probeValueReceived` is false; when none holds, no send occurs and
`cycleCpt` is incremented by one. -/
theorem c1_send_iff (s : NodeState) (raw : Nat) (h : Reachable s) :
    ((processMoisture s raw).2.isSome = true ↔
      (scaleProbeValue raw ≠ s.lastProbeValue ∨
        FORCE_SEND_AFTER_N_CYCLE ≤ s.cycleCpt ∨
        s.probeValueReceived = false)) ∧
    (¬ (scaleProbeValue raw ≠ s.lastProbeValue ∨
        FORCE_SEND_AFTER_N_CYCLE ≤ s.cycleCpt ∨
        s.probeValueReceived = false) →
      (processMoisture s raw).2 = none ∧
      ((processMoisture s raw).1).cycleCpt = s.cycleCpt + 1) := by
  have hb := reachable_cycleCpt_le s h
  simp only [processMoisture]
  split
  · rename_i hc
    simp only [Bool.or_eq_true, bne_iff_ne, ne_eq, beq_iff_eq,
      Bool.not_eq_true'] at hc
    have hrhs : scaleProbeValue raw ≠ s.lastProbeValue ∨
        FORCE_SEND_AFTER_N_CYCLE ≤ s.cycleCpt ∨
        s.probeValueReceived = false := by
      rcases hc with (h1 | h2) | h3
      · exact Or.inl h1
      · exact Or.inr (Or.inl (by omega))
      · exact Or.inr (Or.inr h3)
    constructor
    · simpa using hrhs
    · intro hn; exact absurd hrhs hn
  · rename_i hc
    simp only [Bool.or_eq_true, bne_iff_ne, ne_eq, beq_iff_eq,
      Bool.not_eq_true', not_or, not_not] at hc
    obtain ⟨⟨h1, h2⟩, h3⟩ := hc
    have h3t : s.probeValueReceived = true := by
      revert h3; cases s.probeValueReceived <;> simp
    have hn3 : ¬ FORCE_SEND_AFTER_N_CYCLE ≤ s.cycleCpt := by
      unfold FORCE_SEND_AFTER_N_CYCLE at *; omega
    have hmod : (s.cycleCpt + 1) % UINT16_MOD = s.cycleCpt + 1 := by
      unfold FORCE_SEND_AFTER_N_CYCLE at hb
      unfold UINT16_MOD
      omega
    constructor
    · dsimp only
      simp [h1, h3t, hn3]
    · intro _
      dsimp only
      exact ⟨rfl, hmod⟩

/-- Witness for C1 at the initial state with raw input 512. -/
theorem c1_send_iff_witness :
    Reachable initialState ∧
      (((processMoisture initialState 512).2.isSome = true ↔
        (scaleProbeValue 512 ≠ initialState.lastProbeValue ∨
          FORCE_SEND_AFTER_N_CYCLE ≤ initialState.cycleCpt ∨
          initialState.probeValueReceived = false)) ∧
      (¬ (scaleProbeValue 512 ≠ initialState.lastProbeValue ∨
          FORCE_SEND_AFTER_N_CYCLE ≤ initialState.cycleCpt ∨
          initialState.probeValueReceived = false) →
        (processMoisture initialState 512).2 = none ∧
        ((processMoisture initialState 512).1).cycleCpt
          = initialState.cycleCpt + 1)) :=
  ⟨Reachable.init, c1_send_iff initialState 512 Reachable.init⟩

/-- Claim C2: For every raw analog sample (0..1023) the scaled moisture
percentage equals `round (100 * raw / 1024)` and lies in [0, 100]; in
particular raw = 512 yields 50. -/
theorem c2_scaling (raw : Nat) (h : raw ≤ 1023) :
    scaleProbeValue raw = round ((100 * raw : ℚ) / 1024) ∧
    0 ≤ scaleProbeValue raw ∧ scaleProbeValue raw ≤ 100 ∧
    scaleProbeValue 512 = 50 :=
  ⟨scaleProbeValue_eq_round raw, scaleProbeValue_nonneg raw,
    scaleProbeValue_le raw h, by decide⟩

/-- Witness for C2 at raw = 512. -/
theorem c2_scaling_witness :
    (512 : Nat) ≤ 1023 ∧
      (scaleProbeValue 512 = round ((100 * 512 : ℚ) / 1024) ∧
        0 ≤ scaleProbeValue 512 ∧ scaleProbeValue 512 ≤ 100 ∧
        scaleProbeValue 512 = 50) :=
  ⟨by decide, by exact_mod_cast c2_scaling 512 (by decide)⟩

/-- Claim C3: Immediately after any moisture send, `cycleCpt = 0`,
`probeValueReceived = false` and `lastProbeValue` equals the value just
sent; and `probeValueReceived` goes from false to true only via the
`receive` callback observing an acknowledgement on `CHILD_VALUE_ID` —
no other step sets it true. -/
theorem c3_post_send (s : NodeState) (raw : Nat) (v : Int)
    (hs : (processMoisture s raw).2 = some v) :
    (((processMoisture s raw).1).cycleCpt = 0 ∧
      ((processMoisture s raw).1).probeValueReceived = false ∧
      ((processMoisture s raw).1).lastProbeValue = v) ∧
    (∀ t sensor ack, t.probeValueReceived = false →
      (receive t sensor ack).probeValueReceived = true →
      sensor = CHILD_VALUE_ID ∧ ack = true) ∧
    (∀ t raw2, ((processMoisture t raw2).1).probeValueReceived = true →
      t.probeValueReceived = true) ∧
    (∀ t a soc,
      ((processBattery t a soc).1).probeValueReceived = t.probeValueReceived) ∧
    (∀ t, ((processReset t).1).probeValueReceived = t.probeValueReceived) := by
  refine ⟨?_, ?_, ?_, ?_, ?_⟩
  · by_cases hcond : (scaleProbeValue raw != s.lastProbeValue
        || s.cycleCpt == FORCE_SEND_AFTER_N_CYCLE
        || !s.probeValueReceived) = true
    · simp only [processMoisture, hcond, if_true] at hs ⊢
      obtain rfl : scaleProbeValue raw = v := by simpa using hs
      exact ⟨trivial, trivial, rfl⟩
    · simp [processMoisture, hcond] at hs
  · intro t sensor ack hf ht
    unfold receive at ht
    by_cases hcond : (sensor == CHILD_VALUE_ID && ack) = true
    · simp only [Bool.and_eq_true, beq_iff_eq] at hcond
      exact hcond
    · rw [if_neg hcond] at ht
      rw [hf] at ht
      cases ht
  · intro t raw2 hres
    by_cases hcond : (scaleProbeValue raw2 != t.lastProbeValue
        || t.cycleCpt == FORCE_SEND_AFTER_N_CYCLE
        || !t.probeValueReceived) = true
    · simp [processMoisture, hcond] at hres
    · simp [processMoisture, hcond] at hres
      exact hres
  · intro t a soc
    exact processBattery_probeValueReceived t a soc
  · intro t
    exact processReset_probeValueReceived t

/-- Witness for C3: the initial state sends on raw input 512 with value 50. -/
theorem c3_post_send_witness :
    (processMoisture initialState 512).2 = some 50 ∧
      ((((processMoisture initialState 512).1).cycleCpt = 0 ∧
        ((processMoisture initialState 512).1).probeValueReceived = false ∧
        ((processMoisture initialState 512).1).lastProbeValue = 50) ∧
      (∀ t sensor ack, t.probeValueReceived = false →
        (receive t sensor ack).probeValueReceived = true →
        sensor = CHILD_VALUE_ID ∧ ack = true) ∧
      (∀ t raw2, ((processMoisture t raw2).1).probeValueReceived = true →
        t.probeValueReceived = true) ∧
      (∀ t a soc,
        ((processBattery t a soc).1).probeValueReceived
          = t.probeValueReceived) ∧
      (∀ t, ((processReset t).1).probeValueReceived
        = t.probeValueReceived)) :=
  ⟨by decide, c3_post_send initialState 512 50 (by decide)⟩

/-- Claim C4: `batteryLowCpt` is incremented on a state-of-charge reading
strictly below `BATTERY_LOW_LIMIT` (10) and reset to 0 on any single
reading at or above it; the terminal low-power branch (report battery
level 0 and sleep indefinitely) fires exactly when the counter reaches
`SEND_BATTERY_LOW_AFTER_N_CYCLE` (3) consecutive low readings.  For the
SOC sequence [9, 9, 8, 11] the recorded counter/trigger trace is
[(1, no), (2, no), (counter reached 3 → trigger, reset to 0), (0, no)]. -/
theorem c4_battery_low_counter (s : NodeState) (soc : ℚ) (allowSend : Bool)
    (h : s.batteryLowCpt + 1 < UINT16_MOD) :
    (BATTERY_LOW_LIMIT ≤ soc →
      ((processBattery s allowSend soc).1).batteryLowCpt = 0 ∧
      BatteryEvent.sleepForever ∉ (processBattery s allowSend soc).2) ∧
    (soc < BATTERY_LOW_LIMIT →
      (s.batteryLowCpt + 1 < SEND_BATTERY_LOW_AFTER_N_CYCLE →
        ((processBattery s allowSend soc).1).batteryLowCpt
          = s.batteryLowCpt + 1 ∧
        BatteryEvent.sleepForever ∉ (processBattery s allowSend soc).2) ∧
      (SEND_BATTERY_LOW_AFTER_N_CYCLE ≤ s.batteryLowCpt + 1 →
        BatteryEvent.sleepForever ∈ (processBattery s allowSend soc).2 ∧
        ((processBattery s allowSend soc).1).batteryLowCpt = 0)) ∧
    batteryTrace batteryExampleState [9, 9, 8, 11]
      = [(1, false), (2, false), (0, true), (0, false)] := by
  unfold UINT16_MOD at h
  refine ⟨?_, ?_, by decide⟩
  · intro hge
    have hlt : ¬ soc < BATTERY_LOW_LIMIT := not_lt.mpr hge
    simp only [processBattery, if_neg hlt]
    have : ¬ (0 ≥ SEND_BATTERY_LOW_AFTER_N_CYCLE) := by decide
    simp only [ge_iff_le]
    rw [if_neg (by simpa using this)]
    constructor
    · rfl
    · cases allowSend <;> simp
  · intro hlt
    simp only [processBattery, if_pos hlt]
    have hmod : (s.batteryLowCpt + 1) % 65536 = s.batteryLowCpt + 1 := by
      omega
    constructor
    · intro hsmall
      unfold SEND_BATTERY_LOW_AFTER_N_CYCLE at hsmall
      rw [if_neg (by simp only [ge_iff_le]; unfold UINT16_MOD SEND_BATTERY_LOW_AFTER_N_CYCLE; omega)]
      constructor
      · dsimp only; unfold UINT16_MOD; omega
      · cases allowSend <;> simp
    · intro hbig
      unfold SEND_BATTERY_LOW_AFTER_N_CYCLE at hbig
      rw [if_pos (by simp only [ge_iff_le]; unfold UINT16_MOD SEND_BATTERY_LOW_AFTER_N_CYCLE; omega)]
      constructor
      · cases allowSend <;> simp
      · rfl

/-- Witness for C4 at a concrete low reading from the example state. -/
theorem c4_battery_low_counter_witness :
    batteryExampleState.batteryLowCpt + 1 < UINT16_MOD ∧
      ((BATTERY_LOW_LIMIT ≤ (9 : ℚ) →
        ((processBattery batteryExampleState true 9).1).batteryLowCpt = 0 ∧
        BatteryEvent.sleepForever
          ∉ (processBattery batteryExampleState true 9).2) ∧
      ((9 : ℚ) < BATTERY_LOW_LIMIT →
        (batteryExampleState.batteryLowCpt + 1
            < SEND_BATTERY_LOW_AFTER_N_CYCLE →
          ((processBattery batteryExampleState true 9).1).batteryLowCpt
            = batteryExampleState.batteryLowCpt + 1 ∧
          BatteryEvent.sleepForever
            ∉ (processBattery batteryExampleState true 9).2) ∧
        (SEND_BATTERY_LOW_AFTER_N_CYCLE
            ≤ batteryExampleState.batteryLowCpt + 1 →
          BatteryEvent.sleepForever
            ∈ (processBattery batteryExampleState true 9).2 ∧
          ((processBattery batteryExampleState true 9).1).batteryLowCpt
            = 0)) ∧
      batteryTrace batteryExampleState [9, 9, 8, 11]
        = [(1, false), (2, false), (0, true), (0, false)]) :=
  ⟨by decide, c4_battery_low_counter batteryExampleState 9 true (by decide)⟩

/-- Claim C5: The reset step increments `cycleCptReset` every cycle; when
it reaches `RESET_AFTER_N_CYCLE` (36) a restart is triggered and
`cycleCptReset` is 0 immediately after the restart is initiated
(`doRestart` zeroes it before the `jmp 0`). -/
theorem c5_reset_counter (s : NodeState) (h : s.cycleCptReset + 1 < UINT16_MOD) :
    ((processReset s).2 = true ↔ RESET_AFTER_N_CYCLE ≤ s.cycleCptReset + 1) ∧
    ((processReset s).2 = true → ((processReset s).1).cycleCptReset = 0) ∧
    ((processReset s).2 = false →
      ((processReset s).1).cycleCptReset = s.cycleCptReset + 1) := by
  unfold UINT16_MOD at h
  simp only [processReset]
  have hmod : (s.cycleCptReset + 1) % UINT16_MOD = s.cycleCptReset + 1 := by
    unfold UINT16_MOD; omega
  rw [hmod]
  by_cases hge : s.cycleCptReset + 1 ≥ RESET_AFTER_N_CYCLE
  · rw [if_pos (by simpa using hge)]
    refine ⟨by simpa using hge, fun _ => rfl, by simp⟩
  · rw [if_neg (by simpa using hge)]
    refine ⟨by simpa using hge, by simp, fun _ => rfl⟩

/-- Witness for C5 at `cycleCptReset = 35` (the cycle that triggers). -/
theorem c5_reset_counter_witness :
    ({ initialState with cycleCptReset := 35 } : NodeState).cycleCptReset + 1
        < UINT16_MOD ∧
      (((processReset { initialState with cycleCptReset := 35 }).2 = true ↔
        RESET_AFTER_N_CYCLE
          ≤ ({ initialState with cycleCptReset := 35 } : NodeState).cycleCptReset
            + 1) ∧
      ((processReset { initialState with cycleCptReset := 35 }).2 = true →
        ((processReset { initialState with cycleCptReset := 35 }).1).cycleCptReset
          = 0) ∧
      ((processReset { initialState with cycleCptReset := 35 }).2 = false →
        ((processReset { initialState with cycleCptReset := 35 }).1).cycleCptReset
          = ({ initialState with
                cycleCptReset := 35 } : NodeState).cycleCptReset + 1)) :=
  ⟨by decide, c5_reset_counter { initialState with cycleCptReset := 35 }
    (by decide)⟩

/-- Claim C6: On the very first duty cycle after power-on, the moisture
step always sends, regardless of `lastProbeValue` (and of the ack flag
and raw input), because `setup()` pre-sets `cycleCpt` to
`FORCE_SEND_AFTER_N_CYCLE`. -/
theorem c6_first_cycle_sends (last : Int) (received : Bool) (raw : Nat) :
    initialState.cycleCpt = FORCE_SEND_AFTER_N_CYCLE ∧
    (processMoisture
      { initialState with
          lastProbeValue := last
          probeValueReceived := received } raw).2.isSome = true ∧
    (processMoisture initialState raw).2.isSome = true := by
  refine ⟨rfl, ?_, ?_⟩ <;>
    simp [processMoisture, initialState, FORCE_SEND_AFTER_N_CYCLE]

/-- Claim C7: `lastProbeValue` is modified only by the moisture step and
only on cycles where a send occurs: the battery step, the reset step and
the `receive` callback never change it, the moisture step leaves it
unchanged when it does not send, and a full duty cycle with no moisture
send (and no software restart, which would end the process and
reinitialise all globals) leaves it unchanged. -/
theorem c7_lastProbeValue_frame (s : NodeState) (raw : Nat) (soc : ℚ) :
    ((processMoisture s raw).2 = none →
      ((processMoisture s raw).1).lastProbeValue = s.lastProbeValue) ∧
    (∀ a, ((processBattery s a soc).1).lastProbeValue = s.lastProbeValue) ∧
    ((processReset s).1).lastProbeValue = s.lastProbeValue ∧
    (∀ sensor ack, (receive s sensor ack).lastProbeValue
      = s.lastProbeValue) ∧
    ((processMoisture s raw).2 = none →
      (processReset ((processBattery ((processMoisture s raw).1)
          ((processMoisture s raw).2).isSome soc).1)).2 = false →
      (loopCycle s raw soc).lastProbeValue = s.lastProbeValue) := by
  refine ⟨processMoisture_none_lastProbeValue s raw,
    fun a => processBattery_lastProbeValue s a soc,
    processReset_lastProbeValue s,
    fun sensor ack => receive_lastProbeValue s sensor ack, ?_⟩
  intro hnone hnores
  simp only [loopCycle]
  rw [if_neg (by simpa using hnores)]
  rw [processReset_lastProbeValue, processBattery_lastProbeValue]
  exact processMoisture_none_lastProbeValue s raw hnone

/-- Witness for C7: a cycle with an unchanged reading, an acknowledged
previous send, `cycleCpt = 0` and no restart due. -/
theorem c7_lastProbeValue_frame_witness :
    (processMoisture
        { initialState with lastProbeValue := 50, cycleCpt := 0 } 512).2
      = none ∧
    (processReset ((processBattery
        ((processMoisture
          { initialState with lastProbeValue := 50, cycleCpt := 0 } 512).1)
        ((processMoisture
          { initialState with lastProbeValue := 50, cycleCpt := 0 } 512).2).isSome
        50).1)).2 = false ∧
    (loopCycle { initialState with lastProbeValue := 50, cycleCpt := 0 }
        512 50).lastProbeValue
      = ({ initialState with
            lastProbeValue := 50, cycleCpt := 0 } : NodeState).lastProbeValue :=
  ⟨by decide, by decide,
    (c7_lastProbeValue_frame
      { initialState with lastProbeValue := 50, cycleCpt := 0 } 512 50).2.2.2.2
      (by decide) (by decide)⟩

/-- Claim C8: The moisture reading path takes exactly one analog sample
per cycle, with no oversampling or averaging: the outcome is a function
of sample 0 of the per-cycle ADC stream alone (any two streams agreeing
on sample 0 — in particular disagreeing on samples 1..NUM_READS-1 —
give identical results, and any value sent is the scaling of sample 0);
the declared constant `NUM_READS` (10) has no effect on the reading. -/
theorem c8_single_sample (adc adc2 : Nat → Nat) (s : NodeState)
    (h : adc 0 = adc2 0) :
    NUM_READS = 10 ∧
    processMoistureAdc adc s = processMoistureAdc adc2 s ∧
    ((processMoistureAdc adc s).2 = none ∨
      (processMoistureAdc adc s).2 = some (scaleProbeValue (adc 0))) := by
  refine ⟨rfl, ?_, ?_⟩
  · unfold processMoistureAdc
    rw [h]
  · unfold processMoistureAdc
    by_cases hcond : (scaleProbeValue (adc 0) != s.lastProbeValue
        || s.cycleCpt == FORCE_SEND_AFTER_N_CYCLE
        || !s.probeValueReceived) = true
    · right; simp [processMoisture, hcond]
    · left; simp [processMoisture, hcond]

/-- Witness for C8: two streams agreeing at sample 0 and differing
everywhere else. -/
theorem c8_single_sample_witness :
    (fun _ : Nat => 512) 0 = (fun n : Nat => if n = 0 then 512 else 7) 0 ∧
      (NUM_READS = 10 ∧
        processMoistureAdc (fun _ : Nat => 512) initialState
          = processMoistureAdc (fun n : Nat => if n = 0 then 512 else 7)
              initialState ∧
        ((processMoistureAdc (fun _ : Nat => 512) initialState).2 = none ∨
          (processMoistureAdc (fun _ : Nat => 512) initialState).2
            = some (scaleProbeValue ((fun _ : Nat => 512) 0)))) :=
  ⟨rfl, c8_single_sample (fun _ => 512) (fun n => if n = 0 then 512 else 7)
    initialState rfl⟩

/-- Claim C9: In every state reachable from power-on, `cycleCpt` is at most
`FORCE_SEND_AFTER_N_CYCLE` (3); hence the code's equality test
`cycleCpt == FORCE_SEND_AFTER_N_CYCLE` agrees with the spec's
"has reached the threshold" (≥) condition. -/
theorem c9_cycleCpt_invariant (s : NodeState) (h : Reachable s) :
    s.cycleCpt ≤ FORCE_SEND_AFTER_N_CYCLE ∧
      ((s.cycleCpt == FORCE_SEND_AFTER_N_CYCLE)
        = decide (FORCE_SEND_AFTER_N_CYCLE ≤ s.cycleCpt)) := by
  have hb := reachable_cycleCpt_le s h
  refine ⟨hb, ?_⟩
  by_cases hc : s.cycleCpt = FORCE_SEND_AFTER_N_CYCLE
  · simp [hc]
  · have : ¬ FORCE_SEND_AFTER_N_CYCLE ≤ s.cycleCpt := by omega
    simp [hc, this]

/-- Witness for C9 at the initial state. -/
theorem c9_cycleCpt_invariant_witness :
    Reachable initialState ∧
      (initialState.cycleCpt ≤ FORCE_SEND_AFTER_N_CYCLE ∧
        ((initialState.cycleCpt == FORCE_SEND_AFTER_N_CYCLE)
          = decide (FORCE_SEND_AFTER_N_CYCLE ≤ initialState.cycleCpt))) :=
  ⟨Reachable.init, c9_cycleCpt_invariant initialState Reachable.init⟩

/-- Claim C10: When the terminal low-battery branch fires, battery level 0
is transmitted unconditionally — even when `allowSend` is false — and
`batteryLowCpt` is reset to 0 before the indefinite sleep (the returned
state, in force when `sleep(1, CHANGE, 0)` blocks, has counter 0 and the
sleep is the last event); after a wake from that state, three further
consecutive low readings are required before the branch fires again. -/
theorem c10_terminal_branch (s : NodeState) (soc : ℚ) (allowSend : Bool)
    (htrig : BatteryEvent.sleepForever ∈ (processBattery s allowSend soc).2) :
    BatteryEvent.sendLevel 0 ∈ (processBattery s allowSend soc).2 ∧
    (processBattery s allowSend soc).2.getLast?
      = some BatteryEvent.sleepForever ∧
    ((processBattery s allowSend soc).1).batteryLowCpt = 0 ∧
    (allowSend = false →
      (processBattery s allowSend soc).2
        = [BatteryEvent.sendLevel 0, BatteryEvent.sleepForever]) ∧
    (∀ (t : NodeState) (soc1 soc2 soc3 : ℚ), t.batteryLowCpt = 0 →
      soc1 < BATTERY_LOW_LIMIT → soc2 < BATTERY_LOW_LIMIT →
      soc3 < BATTERY_LOW_LIMIT →
      BatteryEvent.sleepForever ∉ (processBattery t false soc1).2 ∧
      BatteryEvent.sleepForever
        ∉ (processBattery ((processBattery t false soc1).1) false soc2).2 ∧
      BatteryEvent.sleepForever
        ∈ (processBattery
            ((processBattery ((processBattery t false soc1).1) false soc2).1)
            false soc3).2) := by
  have hfire :
      BatteryEvent.sleepForever ∈ (processBattery s allowSend soc).2 →
        (if soc < BATTERY_LOW_LIMIT then (s.batteryLowCpt + 1) % UINT16_MOD
          else 0) ≥ SEND_BATTERY_LOW_AFTER_N_CYCLE := by
    intro hm
    by_contra hlt
    simp only [processBattery] at hm
    rw [if_neg (by simpa [apply_ite NodeState.batteryLowCpt] using hlt)] at hm
    cases allowSend <;> simp at hm
  have hcond := hfire htrig
  refine ⟨?_, ?_, ?_, ?_, ?_⟩
  · simp only [processBattery]
    rw [if_pos (by simpa [apply_ite NodeState.batteryLowCpt] using hcond)]
    cases allowSend <;> simp
  · simp only [processBattery]
    rw [if_pos (by simpa [apply_ite NodeState.batteryLowCpt] using hcond)]
    cases allowSend <;> simp
  · simp only [processBattery]
    rw [if_pos (by simpa [apply_ite NodeState.batteryLowCpt] using hcond)]
  · intro hfalse
    subst hfalse
    simp only [processBattery]
    rw [if_pos (by simpa [apply_ite NodeState.batteryLowCpt] using hcond)]
    simp
  · intro t soc1 soc2 soc3 ht h1 h2 h3
    have e1 : processBattery t false soc1
        = ({ t with batteryLowCpt := 1 }, []) := by
      simp only [processBattery, if_pos h1, ht]
      rw [if_neg (by simp [ht, UINT16_MOD, SEND_BATTERY_LOW_AFTER_N_CYCLE])]
      simp [UINT16_MOD]
    have e2 : processBattery ({ t with batteryLowCpt := 1 }) false soc2
        = ({ t with batteryLowCpt := 2 }, []) := by
      simp only [processBattery, if_pos h2]
      rw [if_neg (by simp [UINT16_MOD, SEND_BATTERY_LOW_AFTER_N_CYCLE])]
      simp [UINT16_MOD]
    have e3 : processBattery ({ t with batteryLowCpt := 2 }) false soc3
        = ({ t with batteryLowCpt := 0 },
            [BatteryEvent.sendLevel 0, BatteryEvent.sleepForever]) := by
      simp only [processBattery, if_pos h3]
      rw [if_pos (by simp [UINT16_MOD, SEND_BATTERY_LOW_AFTER_N_CYCLE])]
      simp [UINT16_MOD]
    refine ⟨?_, ?_, ?_⟩
    · rw [e1]; simp
    · rw [e1]; dsimp only; rw [e2]; simp
    · rw [e1]; dsimp only; rw [e2]; dsimp only; rw [e3]; simp

/-- Witness for C10: third consecutive low reading from counter 2, with
`allowSend = false`. -/
theorem c10_terminal_branch_witness :
    BatteryEvent.sleepForever
        ∈ (processBattery { initialState with batteryLowCpt := 2 } false 9).2 ∧
      (BatteryEvent.sendLevel 0
          ∈ (processBattery { initialState with batteryLowCpt := 2 } false 9).2 ∧
        (processBattery { initialState with batteryLowCpt := 2 } false 9).2.getLast?
          = some BatteryEvent.sleepForever ∧
        ((processBattery { initialState with batteryLowCpt := 2 } false 9).1).batteryLowCpt
          = 0 ∧
        (false = false →
          (processBattery { initialState with batteryLowCpt := 2 } false 9).2
            = [BatteryEvent.sendLevel 0, BatteryEvent.sleepForever]) ∧
        (∀ (t : NodeState) (soc1 soc2 soc3 : ℚ), t.batteryLowCpt = 0 →
          soc1 < BATTERY_LOW_LIMIT → soc2 < BATTERY_LOW_LIMIT →
          soc3 < BATTERY_LOW_LIMIT →
          BatteryEvent.sleepForever ∉ (processBattery t false soc1).2 ∧
          BatteryEvent.sleepForever
            ∉ (processBattery ((processBattery t false soc1).1) false soc2).2 ∧
          BatteryEvent.sleepForever
            ∈ (processBattery
                ((processBattery ((processBattery t false soc1).1) false soc2).1)
                false soc3).2)) :=
  ⟨by decide,
    c10_terminal_branch { initialState with batteryLowCpt := 2 } 9 false
      (by decide)⟩

end MoistureSensor
